import Mathlib

/-!
Verification of the gamescope vblank manager (src/vblankmanager.cpp).

The C++ code works on `uint64_t` values; we embed it shallowly over `Nat`
with explicit reduction modulo 2 ^ 64 at every machine operation that can
wrap (`add64`, `sub64`, `mul64`).  Division and comparison on `uint64_t`
agree with the corresponding `Nat` operations on values below 2 ^ 64, so
they are used directly.  C `int` parameters that are only ever used with
non-negative values in the claims under study (fps targets, refresh rates,
vblank counts) are modelled as `Nat`; the target-fps global, which is
compared against 0, is modelled as `Int` where the sign matters.
-/

namespace VblankManager

/-- 2 ^ 64, the modulus of `uint64_t` arithmetic. -/
def two64 : Nat := 2 ^ 64

/-- `uint64_t` addition (wraps modulo 2 ^ 64). -/
def add64 (a b : Nat) : Nat := (a + b) % two64

/-- `uint64_t` subtraction (wraps modulo 2 ^ 64). -/
def sub64 (a b : Nat) : Nat := (a + (two64 - b % two64)) % two64

/-- `uint64_t` multiplication (wraps modulo 2 ^ 64). -/
def mul64 (a b : Nat) : Nat := (a * b) % two64

/-- Source line 27: `const uint64_t g_uStartingDrawTime = 3'000'000;`. -/
def g_uStartingDrawTime : Nat := 3000000

/-- Source line 46: `const uint64_t g_uVBlankRateOfDecayMax = 100;`. -/
def g_uVBlankRateOfDecayMax : Nat := 100

/-- Source line 72 of `vblankThreadRun`:
`rollingMaxDrawTime = ((alpha * std::max(rollingMaxDrawTime, drawTime)) + (range - alpha) * drawTime) / range;`
with `range = g_uVBlankRateOfDecayMax = 100`, in `uint64_t` arithmetic. -/
def rollingMaxUpdate (alpha rollingMaxDrawTime drawTime : Nat) : Nat :=
  (add64 (mul64 alpha (max rollingMaxDrawTime drawTime))
      (mul64 (sub64 g_uVBlankRateOfDecayMax alpha) drawTime)) / g_uVBlankRateOfDecayMax

/-- Source line 76 of `vblankThreadRun`:
`rollingMaxDrawTime = std::min(rollingMaxDrawTime + g_uVblankDrawBufferRedZoneNS, nsecInterval / 2) - g_uVblankDrawBufferRedZoneNS;`
in `uint64_t` arithmetic. -/
def rollingMaxClamp (rollingMaxDrawTime redZone nsecInterval : Nat) : Nat :=
  sub64 (min (add64 rollingMaxDrawTime redZone) (nsecInterval / 2)) redZone

/-- Source line 78 of `vblankThreadRun`:
`uint64_t offset = rollingMaxDrawTime + g_uVblankDrawBufferRedZoneNS;`. -/
def vblankOffset (rollingMaxDrawTime redZone : Nat) : Nat :=
  add64 rollingMaxDrawTime redZone

/-- Source lines 275-291:
```
bool fpslimit_use_frame_callbacks_for_focus_window( int nTargetFPS, int nVBlankCount )
{
  if ( !nTargetFPS ) return true;
  if ( g_nOutputRefresh % nTargetFPS == 0 )
    return nVBlankCount % ( g_nOutputRefresh / nTargetFPS );
  else
    return false;
}
```
The global `g_nOutputRefresh` is passed explicitly as the first argument.
The `int` result of the modulo is converted to `bool` by the C++ rule
nonzero = `true`. -/
def fpslimit_use_frame_callbacks_for_focus_window
    (g_nOutputRefresh nTargetFPS nVBlankCount : Nat) : Bool :=
  if nTargetFPS = 0 then
    true
  else if g_nOutputRefresh % nTargetFPS = 0 then
    decide (nVBlankCount % (g_nOutputRefresh / nTargetFPS) ≠ 0)
  else
    false

/- ### Basic facts about the wrapped operations -/

theorem two64_pos : 0 < two64 := by
  unfold two64
  exact Nat.pos_pow_of_pos 64 (by decide)

theorem add64_lt (a b : Nat) : add64 a b < two64 :=
  Nat.mod_lt _ two64_pos

theorem sub64_lt (a b : Nat) : sub64 a b < two64 :=
  Nat.mod_lt _ two64_pos

theorem add64_eq_of_lt {a b : Nat} (h : a + b < two64) : add64 a b = a + b :=
  Nat.mod_eq_of_lt h

theorem mul64_eq_of_lt {a b : Nat} (h : a * b < two64) : mul64 a b = a * b :=
  Nat.mod_eq_of_lt h

theorem sub64_eq_of_le {a b : Nat} (hba : b ≤ a) (ha : a < two64) :
    sub64 a b = a - b := by
  have hb : b < two64 := lt_of_le_of_lt hba ha
  unfold sub64
  rw [Nat.mod_eq_of_lt hb]
  have h1 : a + (two64 - b) = two64 + (a - b) := by omega
  rw [h1, Nat.add_mod_left, Nat.mod_eq_of_lt (by omega)]

/- ### The catch-up while loop of the predictor (source lines 108-110)

```
uint64_t targetPoint = lastVblank + nsecInterval;
while ( targetPoint < now )
  targetPoint += nsecInterval;
```
The additions are `uint64_t` additions; they are modelled as plain `Nat`
additions, which agrees with the machine run whenever no wraparound occurs
(for nanosecond timestamps below 2 ^ 63 and intervals at most 10 ^ 9, as in
every reachable configuration, no addition here can reach 2 ^ 64).  The
`0 < nsecInterval` guard only encodes termination: with `nsecInterval = 0`
the C loop never terminates, and all call sites have `nsecInterval ≥ 1`. -/
def advanceTarget (now nsecInterval targetPoint : Nat) : Nat :=
  if _h : 0 < nsecInterval ∧ targetPoint < now then
    advanceTarget now nsecInterval (targetPoint + nsecInterval)
  else
    targetPoint
termination_by now - targetPoint
decreasing_by omega

/-- Source lines 105-110 of `vblankThreadRun`: the wake point handed to
`sleep_until_nanos`, starting from `uint64_t lastVblank = g_lastVblank - offset;`. -/
def vblankTargetPoint (g_lastVblank offset nsecInterval now : Nat) : Nat :=
  advanceTarget now nsecInterval (sub64 g_lastVblank offset + nsecInterval)

theorem advanceTarget_ge (now nsecInterval : Nat) (hI : 0 < nsecInterval) :
    ∀ tp, now ≤ advanceTarget now nsecInterval tp := by
  refine advanceTarget.induct now nsecInterval
    (fun tp => now ≤ advanceTarget now nsecInterval tp) ?_ ?_
  · intro tp h ih
    rw [advanceTarget, dif_pos h]
    exact ih
  · intro tp h
    rw [advanceTarget, dif_neg h]
    omega

theorem advanceTarget_exists (now nsecInterval : Nat) :
    ∀ tp, ∃ k : Nat, advanceTarget now nsecInterval tp = tp + k * nsecInterval := by
  refine advanceTarget.induct now nsecInterval
    (fun tp => ∃ k : Nat, advanceTarget now nsecInterval tp = tp + k * nsecInterval) ?_ ?_
  · intro tp h ih
    obtain ⟨k, hk⟩ := ih
    refine ⟨k + 1, ?_⟩
    rw [advanceTarget, dif_pos h, hk]
    ring
  · intro tp h
    exact ⟨0, by rw [advanceTarget, dif_neg h]; ring⟩

theorem advanceTarget_min (now nsecInterval : Nat) :
    ∀ tp, ∀ j : Nat, now ≤ tp + j * nsecInterval →
      advanceTarget now nsecInterval tp ≤ tp + j * nsecInterval := by
  refine advanceTarget.induct now nsecInterval
    (fun tp => ∀ j : Nat, now ≤ tp + j * nsecInterval →
      advanceTarget now nsecInterval tp ≤ tp + j * nsecInterval) ?_ ?_
  · intro tp h ih j hj
    rw [advanceTarget, dif_pos h]
    have hj1 : 1 ≤ j := by
      rcases Nat.eq_zero_or_pos j with h0 | h1
      · subst h0; simp at hj; omega
      · exact h1
    have heq : tp + j * nsecInterval = (tp + nsecInterval) + (j - 1) * nsecInterval := by
      cases j with
      | zero => omega
      | succ j => simp [Nat.succ_sub_one, Nat.succ_mul]; ring
    rw [heq]
    exact ih (j - 1) (by omega)
  · intro tp h j hj
    rw [advanceTarget, dif_neg h]
    omega

/-- The clamp at line 76 followed by the offset at line 78 computes, in
`uint64_t` arithmetic, exactly the minimum of the unclamped offset and half
the refresh interval. -/
theorem vblankOffset_clamp_eq (r redZone nsecInterval : Nat)
    (hRZ : redZone < two64) (hNI : nsecInterval < two64) :
    vblankOffset (rollingMaxClamp r redZone nsecInterval) redZone
      = min (add64 r redZone) (nsecInterval / 2) := by
  have hm : min (add64 r redZone) (nsecInterval / 2) < two64 :=
    lt_of_le_of_lt (min_le_left _ _) (add64_lt r redZone)
  unfold vblankOffset rollingMaxClamp sub64 add64
  rw [Nat.mod_eq_of_lt hRZ, Nat.mod_add_mod]
  have h1 : min ((r + redZone) % two64) (nsecInterval / 2) + (two64 - redZone) + redZone
      = min ((r + redZone) % two64) (nsecInterval / 2) + two64 := by omega
  rw [h1, Nat.add_mod_right, Nat.mod_eq_of_lt]
  unfold add64 at hm
  exact hm

/-- C2: for every `alpha ∈ [0,100]`, every `drawTime ≥ 0`, every
`redZone ≥ 0` and every refresh interval `nsecInterval` (as `uint64_t`
values), after the clamp step at line 76 the stored rolling maximum
satisfies `rollingMax + redZone ≤ nsecInterval / 2` — the sum being the
`uint64_t` sum, which is exactly the `offset` the loop computes next at
line 78 — and `rollingMax ≥ 0`. -/
theorem clamp_bounds_offset (alpha drawTime rollingMaxDrawTime redZone nsecInterval : Nat)
    (hAlpha : alpha ≤ 100) (hRZ : redZone < two64) (hNI : nsecInterval < two64) :
    vblankOffset (rollingMaxClamp (rollingMaxUpdate alpha rollingMaxDrawTime drawTime)
        redZone nsecInterval) redZone ≤ nsecInterval / 2
    ∧ 0 ≤ rollingMaxClamp (rollingMaxUpdate alpha rollingMaxDrawTime drawTime)
        redZone nsecInterval := by
  constructor
  · rw [vblankOffset_clamp_eq _ _ _ hRZ hNI]
    exact min_le_right _ _
  · exact Nat.zero_le _

/-- Witness for `clamp_bounds_offset` at the default tunables
(`alpha = 93`, `drawTime = rollingMax = 3 ms`, `redZone = 2 ms`,
60 Hz interval). -/
theorem clamp_bounds_offset_witness :
    vblankOffset (rollingMaxClamp (rollingMaxUpdate 93 3000000 3000000)
        2000000 16666666) 2000000 ≤ 16666666 / 2
    ∧ 0 ≤ rollingMaxClamp (rollingMaxUpdate 93 3000000 3000000) 2000000 16666666 :=
  clamp_bounds_offset 93 3000000 3000000 2000000 16666666
    (by decide) (by decide) (by decide)

/-- C10: when the target fps is 0, the function returns `true` for every
vblank count and every value of the refresh rate — the refresh rate is
universally quantified and never examined, so the modulo tests and the
division by the target at lines 280-283 are unreachable for a zero target. -/
theorem use_frame_callbacks_target_zero (g_nOutputRefresh nVBlankCount : Nat) :
    fpslimit_use_frame_callbacks_for_focus_window g_nOutputRefresh 0 nVBlankCount = true := by
  unfold fpslimit_use_frame_callbacks_for_focus_window
  rw [if_pos rfl]

/-- C1 counterexample: at the claim's own example (refresh 60, target 30,
vblank count 0 as passed by the limiter loop at line 193) the function
returns `false`, not `true`: the aligned branch returns
`nVBlankCount % (60 / 30) = 0 % 2 = 0`, which converts to `false`. -/
theorem aligned_zero_vblank_counterexample :
    fpslimit_use_frame_callbacks_for_focus_window 60 30 0 = false := by decide

/-- C1 (amended): for every target fps `n > 0` that is an exact divisor of
the output refresh rate, `fpslimit_use_frame_callbacks_for_focus_window`,
as invoked by the limiter loop (with vblank count 0), returns `false`, so
the limiter loop drives the frame callbacks itself even on the aligned
path. -/
theorem aligned_zero_vblank_returns_false (g_nOutputRefresh nTargetFPS : Nat)
    (hPos : 0 < nTargetFPS) (hDiv : g_nOutputRefresh % nTargetFPS = 0) :
    fpslimit_use_frame_callbacks_for_focus_window g_nOutputRefresh nTargetFPS 0 = false := by
  unfold fpslimit_use_frame_callbacks_for_focus_window
  rw [if_neg (by omega), if_pos hDiv]
  simp

/-- Witness for `aligned_zero_vblank_returns_false` at refresh 60, target 30. -/
theorem aligned_zero_vblank_returns_false_witness :
    0 < 30 ∧ 60 % 30 = 0
    ∧ fpslimit_use_frame_callbacks_for_focus_window 60 30 0 = false :=
  ⟨by decide, by decide, aligned_zero_vblank_returns_false 60 30 (by decide) (by decide)⟩

/-- C5: in each predictor cycle the wake time passed to `sleep_until_nanos`
(lines 105-112) lies in the family `g_lastVblank - offset + k * nsecInterval`
(`k` an integer), is at least `now`, and is the smallest member of that
family that is at least `now`.  The hypothesis `g_lastVblank - offset < now`
says the current time is past the offset-shifted last vblank, which rules
out the degenerate family members with `k ≤ 0` (the C loop never considers
them: it starts at `k = 1` and only moves forward). -/
theorem vblank_targetPoint_least (g_lastVblank offset nsecInterval now : Nat)
    (hI : 0 < nsecInterval) (hOff : offset ≤ g_lastVblank) (hLV : g_lastVblank < two64)
    (hNow : g_lastVblank - offset < now) :
    now ≤ vblankTargetPoint g_lastVblank offset nsecInterval now
    ∧ (∃ k : ℤ, (vblankTargetPoint g_lastVblank offset nsecInterval now : ℤ)
        = (g_lastVblank : ℤ) - (offset : ℤ) + k * (nsecInterval : ℤ))
    ∧ (∀ j : ℤ, (now : ℤ) ≤ (g_lastVblank : ℤ) - (offset : ℤ) + j * (nsecInterval : ℤ) →
        (vblankTargetPoint g_lastVblank offset nsecInterval now : ℤ)
          ≤ (g_lastVblank : ℤ) - (offset : ℤ) + j * (nsecInterval : ℤ)) := by
  have hsub : sub64 g_lastVblank offset = g_lastVblank - offset := sub64_eq_of_le hOff hLV
  have hTP : vblankTargetPoint g_lastVblank offset nsecInterval now
      = advanceTarget now nsecInterval ((g_lastVblank - offset) + nsecInterval) := by
    unfold vblankTargetPoint
    rw [hsub]
  have hCastL : ((g_lastVblank - offset : Nat) : ℤ) = (g_lastVblank : ℤ) - (offset : ℤ) :=
    Int.ofNat_sub hOff
  refine ⟨?_, ?_, ?_⟩
  · rw [hTP]
    exact advanceTarget_ge now nsecInterval hI _
  · obtain ⟨k, hk⟩ := advanceTarget_exists now nsecInterval ((g_lastVblank - offset) + nsecInterval)
    refine ⟨(k : ℤ) + 1, ?_⟩
    rw [hTP, hk]
    push_cast [hCastL]
    ring
  · intro j hj
    have hjpos : 1 ≤ j := by
      by_contra hc
      push_neg at hc
      have hj0 : j ≤ 0 := by omega
      have hmul : j * (nsecInterval : ℤ) ≤ 0 := by
        calc j * (nsecInterval : ℤ) ≤ 0 * (nsecInterval : ℤ) :=
              mul_le_mul_of_nonneg_right hj0 (by positivity)
          _ = 0 := by ring
      have : (now : ℤ) ≤ (g_lastVblank : ℤ) - (offset : ℤ) := le_trans hj (by omega)
      rw [← hCastL] at this
      exact absurd (Int.ofNat_le.mp this) (by omega)
    set m : Nat := (j - 1).toNat with hm
    have hjm : j = (m : ℤ) + 1 := by
      rw [hm]
      omega
    have hval : (g_lastVblank : ℤ) - (offset : ℤ) + j * (nsecInterval : ℤ)
        = (((g_lastVblank - offset) + nsecInterval + m * nsecInterval : Nat) : ℤ) := by
      push_cast [hCastL, hjm]
      ring
    have hjNat : now ≤ (g_lastVblank - offset) + nsecInterval + m * nsecInterval := by
      have := hj
      rw [hval] at this
      exact_mod_cast this
    have hminN := advanceTarget_min now nsecInterval
      ((g_lastVblank - offset) + nsecInterval) m (by omega)
    rw [hval, hTP]
    exact_mod_cast hminN

/-- Witness for `vblank_targetPoint_least`: last vblank at 100 000 000 ns,
offset 5 000 000 ns, 60 Hz interval, now = 150 000 000 ns: the wake point
is at least `now` and at most the family member with k = 4 (the least one
at least `now`). -/
theorem vblank_targetPoint_least_witness :
    (150000000 : Nat) ≤ vblankTargetPoint 100000000 5000000 16666666 150000000
    ∧ (vblankTargetPoint 100000000 5000000 16666666 150000000 : ℤ)
        ≤ ((100000000 : Nat) : ℤ) - ((5000000 : Nat) : ℤ) + 4 * ((16666666 : Nat) : ℤ) :=
  ⟨(vblank_targetPoint_least 100000000 5000000 16666666 150000000
      (by decide) (by decide) (by decide) (by decide)).1,
    (vblank_targetPoint_least 100000000 5000000 16666666 150000000
      (by decide) (by decide) (by decide) (by decide)).2.2 4 (by decide)⟩

/-- C3: the rolling-estimate update at line 72 equals
`(alpha * max(rollingMax, drawTime) + (100 - alpha) * drawTime) / 100` in
integer arithmetic; when `drawTime ≥ rollingMax` one update moves the
estimate up to exactly `drawTime` within the single cycle (a spike is
tracked immediately, and the new value is ≥ the old one); when
`drawTime ≤ rollingMax` the excess over `drawTime` becomes
`alpha * (rollingMax - drawTime) / 100`, i.e. it decays geometrically,
losing the fraction `(100 - alpha)/100` per cycle.  The bounds
`< 2 ^ 56` keep every intermediate `uint64_t` product below 2 ^ 64 (real
draw times are below 2 ^ 33). -/
theorem rollingMax_update_formula (alpha rollingMaxDrawTime drawTime : Nat)
    (hAlpha : alpha ≤ 100) (hR : rollingMaxDrawTime < 2 ^ 56) (hD : drawTime < 2 ^ 56) :
    rollingMaxUpdate alpha rollingMaxDrawTime drawTime
      = (alpha * max rollingMaxDrawTime drawTime + (100 - alpha) * drawTime) / 100
    ∧ (rollingMaxDrawTime ≤ drawTime →
        rollingMaxUpdate alpha rollingMaxDrawTime drawTime = drawTime)
    ∧ (drawTime ≤ rollingMaxDrawTime →
        rollingMaxUpdate alpha rollingMaxDrawTime drawTime
          = drawTime + alpha * (rollingMaxDrawTime - drawTime) / 100) := by
  have hM : max rollingMaxDrawTime drawTime < 2 ^ 56 := max_lt hR hD
  have hbound : (100 : Nat) * 2 ^ 56 < two64 := by decide
  have h1 : mul64 alpha (max rollingMaxDrawTime drawTime)
      = alpha * max rollingMaxDrawTime drawTime := by
    apply mul64_eq_of_lt
    calc alpha * max rollingMaxDrawTime drawTime
        ≤ 100 * max rollingMaxDrawTime drawTime := Nat.mul_le_mul_right _ hAlpha
      _ < 100 * 2 ^ 56 := by omega
      _ < two64 := hbound
  have h2 : sub64 g_uVBlankRateOfDecayMax alpha = 100 - alpha := by
    unfold g_uVBlankRateOfDecayMax
    exact sub64_eq_of_le hAlpha (by decide)
  have h3 : mul64 (100 - alpha) drawTime = (100 - alpha) * drawTime := by
    apply mul64_eq_of_lt
    calc (100 - alpha) * drawTime ≤ 100 * drawTime := Nat.mul_le_mul_right _ (by omega)
      _ < 100 * 2 ^ 56 := by omega
      _ < two64 := hbound
  have hsum : alpha * max rollingMaxDrawTime drawTime + (100 - alpha) * drawTime
      ≤ 100 * max rollingMaxDrawTime drawTime := by
    calc alpha * max rollingMaxDrawTime drawTime + (100 - alpha) * drawTime
        ≤ alpha * max rollingMaxDrawTime drawTime
            + (100 - alpha) * max rollingMaxDrawTime drawTime :=
          Nat.add_le_add_left (Nat.mul_le_mul_left _ (le_max_right _ _)) _
      _ = (alpha + (100 - alpha)) * max rollingMaxDrawTime drawTime := by rw [add_mul]
      _ = 100 * max rollingMaxDrawTime drawTime := by rw [Nat.add_sub_cancel' hAlpha]
  have h4 : add64 (alpha * max rollingMaxDrawTime drawTime) ((100 - alpha) * drawTime)
      = alpha * max rollingMaxDrawTime drawTime + (100 - alpha) * drawTime := by
    apply add64_eq_of_lt
    calc alpha * max rollingMaxDrawTime drawTime + (100 - alpha) * drawTime
        ≤ 100 * max rollingMaxDrawTime drawTime := hsum
      _ < 100 * 2 ^ 56 := by omega
      _ < two64 := hbound
  have hform : rollingMaxUpdate alpha rollingMaxDrawTime drawTime
      = (alpha * max rollingMaxDrawTime drawTime + (100 - alpha) * drawTime) / 100 := by
    unfold rollingMaxUpdate
    rw [h2, h1, h3, h4]
    rfl
  refine ⟨hform, ?_, ?_⟩
  · intro hle
    rw [hform, Nat.max_eq_right hle, ← add_mul, Nat.add_sub_cancel' hAlpha]
    exact Nat.mul_div_cancel_left drawTime (by norm_num)
  · intro hge
    rw [hform, Nat.max_eq_left hge]
    have hnum : alpha * rollingMaxDrawTime + (100 - alpha) * drawTime
        = alpha * (rollingMaxDrawTime - drawTime) + 100 * drawTime := by
      zify [hAlpha, hge]
      ring
    rw [hnum, Nat.add_mul_div_left _ _ (by norm_num : (0 : Nat) < 100), add_comm]

/-- Witness for `rollingMax_update_formula` at `alpha = 93`,
`rollingMax = 3 ms`, `drawTime = 9 ms` (the spike scenario of the spec):
the update follows the formula and tracks the spike immediately. -/
theorem rollingMax_update_formula_witness :
    rollingMaxUpdate 93 3000000 9000000
      = (93 * max 3000000 9000000 + (100 - 93) * 9000000) / 100
    ∧ rollingMaxUpdate 93 3000000 9000000 = 9000000 :=
  ⟨(rollingMax_update_formula 93 3000000 9000000 (by decide) (by decide) (by decide)).1,
    (rollingMax_update_formula 93 3000000 9000000 (by decide) (by decide) (by decide)).2.1
      (by decide)⟩

/- ### fps limit manager (source lines 153-302) -/

/-- Source lines 158-163. -/
structure FrameInfo_t where
  lastFrame : Nat
  currentFrame : Nat
  frameCount : Nat
deriving DecidableEq

/-- The shared state guarded by `g_TargetFPSMutex`: the globals
`g_nFpsLimitTargetFPS` (a C `int`, modelled as `Int` since it is compared
against 0) and `g_FrameInfo` (lines 157 and 165). -/
structure FpsLimitShared where
  g_nFpsLimitTargetFPS : Int
  g_FrameInfo : FrameInfo_t
deriving DecidableEq

/-- Source lines 294-302, `fpslimit_set_target`: under the lock, store the
new target fps; the condition variable is then notified. -/
def fpslimit_set_target (s : FpsLimitShared) (nTargetFPS : Int) : FpsLimitShared :=
  ⟨nTargetFPS, s.g_FrameInfo⟩

/-- Source lines 264-273, `fpslimit_mark_frame`: under the lock, shift
`currentFrame` into `lastFrame`, store the current time into
`currentFrame`, and increment `frameCount` (a `uint64_t` increment); the
condition variable is then notified. -/
def fpslimit_mark_frame (s : FpsLimitShared) (now : Nat) : FpsLimitShared :=
  ⟨s.g_nFpsLimitTargetFPS,
    ⟨s.g_FrameInfo.currentFrame, now, add64 s.g_FrameInfo.frameCount 1⟩⟩

/-- The wait predicate of the limiter loop, source line 185:
`return g_nFpsLimitTargetFPS != 0 && g_FrameInfo.frameCount != lastFrameCount;`.
The loop body (and so any commit release) runs only once this returns
`true`. -/
def fpslimitWaitPredicate (s : FpsLimitShared) (lastFrameCount : Nat) : Bool :=
  decide (s.g_nFpsLimitTargetFPS ≠ 0) && decide (s.g_FrameInfo.frameCount ≠ lastFrameCount)

/-- The loop-local state of `fpslimitThreadRun` (lines 176-178). -/
structure LimiterState where
  deviation : Nat
  lastFrameCount : Nat
  lastCommitReleased : Nat
deriving DecidableEq

/-- The clock readings and snapshot consumed by one iteration of
`fpslimitThreadRun` (lines 181-251): the target fps and frame count
snapshotted under the lock, `get_time_in_nanos()` at line 198 (`time1`),
at line 232 after the paced sleep (`timeSleepEnd`), and at line 215/239
after the commit release (`timeRelease`). -/
structure LimiterCycleInput where
  nTargetFPS : Nat
  frameCount : Nat
  time1 : Nat
  timeSleepEnd : Nat
  timeRelease : Nat
deriving DecidableEq

/-- One iteration of the `while (true)` body of `fpslimitThreadRun`
(lines 181-251), restricted to its effect on the loop-local state.  All
arithmetic is `uint64_t` arithmetic.  The calls out to
`steamcompmgr_fpslimit_release_commit` and the frame-done/nudge calls do
not touch this state; the paced sleep only determines the clock reading
`timeSleepEnd`, which is an input here. -/
def fpslimitCycle (s : LimiterState) (inp : LimiterCycleInput) : LimiterState :=
  let targetInterval := 1000000000 / inp.nTargetFPS
  let frameTime := sub64 inp.time1 s.lastCommitReleased
  if mul64 frameTime 100 > sub64 (mul64 targetInterval 103) (mul64 s.deviation 100) then
    ⟨0, inp.frameCount, inp.timeRelease⟩
  else
    let frameTime2 := sub64 inp.timeSleepEnd s.lastCommitReleased
    ⟨min (add64 s.deviation (sub64 frameTime2 targetInterval)) (targetInterval / 16),
      inp.frameCount, inp.timeRelease⟩

/-- Any number of limiter iterations, fed by a list of per-cycle inputs. -/
def runLimiterCycles (s : LimiterState) (inputs : List LimiterCycleInput) : LimiterState :=
  List.foldl fpslimitCycle s inputs

/-- Each single limiter cycle leaves `deviation` at most
`targetInterval / 16` for the target in effect during that cycle: the
slow-frame branch resets it to 0 and the paced branch clamps it with
`std::min` at line 236. -/
theorem fpslimitCycle_deviation_le (s : LimiterState) (inp : LimiterCycleInput) :
    (fpslimitCycle s inp).deviation ≤ (1000000000 / inp.nTargetFPS) / 16 := by
  unfold fpslimitCycle
  dsimp only
  split
  · exact Nat.zero_le _
  · exact min_le_right _ _

/-- C4: after any number of limiter cycles starting from `deviation = 0`,
the deviation accumulator never exceeds `targetInterval / 16`, where
`targetInterval = 10^9 / targetFps` for the target in effect during the
last cycle.  `deviation` is a `uint64_t` (here a `Nat`), so its magnitude
is its value. -/
theorem deviation_bounded (s0 : LimiterState) (h0 : s0.deviation = 0)
    (pre : List LimiterCycleInput) (i : LimiterCycleInput) :
    (runLimiterCycles s0 (pre ++ [i])).deviation ≤ (1000000000 / i.nTargetFPS) / 16 := by
  unfold runLimiterCycles
  rw [List.foldl_append]
  exact fpslimitCycle_deviation_le _ i

/-- Witness for `deviation_bounded`: two cycles at 60 fps. -/
theorem deviation_bounded_witness :
    (runLimiterCycles ⟨0, 0, 0⟩ ([⟨60, 1, 5, 6, 7⟩] ++ [⟨60, 2, 8, 9, 10⟩])).deviation
      ≤ (1000000000 / 60) / 16 :=
  deviation_bounded ⟨0, 0, 0⟩ rfl [⟨60, 1, 5, 6, 7⟩] ⟨60, 2, 8, 9, 10⟩

/-- C9: `deviation` is stored as a `uint64_t` (modelled as `Nat`, so never
negative).  In a sleep-branch cycle whose re-measured frame time is below
`targetInterval` by more than the current deviation, the `uint64_t` update
`deviation += frameTime - targetInterval` (line 235) wraps to a huge value
strictly above `targetInterval / 16`, and the following `std::min` clamp
(line 236) therefore lands `deviation` at exactly `targetInterval / 16`:
an early-finishing frame is recorded as the maximum positive deviation,
not as banked negative credit. -/
theorem early_frame_deviation_clamp (s : LimiterState) (i : LimiterCycleInput)
    (hBranch : ¬ (mul64 (sub64 i.time1 s.lastCommitReleased) 100
        > sub64 (mul64 (1000000000 / i.nTargetFPS) 103) (mul64 s.deviation 100)))
    (hEarly : s.deviation + sub64 i.timeSleepEnd s.lastCommitReleased
        < 1000000000 / i.nTargetFPS) :
    (fpslimitCycle s i).deviation = (1000000000 / i.nTargetFPS) / 16
    ∧ (1000000000 / i.nTargetFPS) / 16
        < add64 s.deviation
            (sub64 (sub64 i.timeSleepEnd s.lastCommitReleased) (1000000000 / i.nTargetFPS)) := by
  have hti : 1000000000 / i.nTargetFPS ≤ 1000000000 := Nat.div_le_self _ _
  set ti := 1000000000 / i.nTargetFPS with hdefti
  set ft2 := sub64 i.timeSleepEnd s.lastCommitReleased with hdefft2
  have hft2 : ft2 < ti := by omega
  have hti64 : ti < two64 := by
    have : (1000000000 : Nat) < two64 := by decide
    omega
  have hX : sub64 ft2 ti = ft2 + (two64 - ti) := by
    unfold sub64
    rw [Nat.mod_eq_of_lt hti64]
    exact Nat.mod_eq_of_lt (by omega)
  have hadd : add64 s.deviation (sub64 ft2 ti) = s.deviation + ft2 + (two64 - ti) := by
    unfold add64
    rw [hX]
    have harr : s.deviation + (ft2 + (two64 - ti)) = s.deviation + ft2 + (two64 - ti) := by omega
    rw [harr]
    exact Nat.mod_eq_of_lt (by omega)
  have hbig : ti / 16 < add64 s.deviation (sub64 ft2 ti) := by
    rw [hadd]
    have h16 : ti / 16 ≤ ti := Nat.div_le_self _ _
    have : (1000000000 : Nat) + 1000000000 < two64 := by decide
    omega
  constructor
  · unfold fpslimitCycle
    rw [if_neg hBranch]
    exact min_eq_right (le_of_lt hbig)
  · exact hbig

/-- Witness for `early_frame_deviation_clamp`: 60 fps target, previous
release at 1000 ns, wait ends at 1000 ns (frame time 0, so the slow-frame
test fails), sleep ends at 2000 ns, so the re-measured frame time 1000 ns
is below the 16 666 666 ns budget by more than the zero deviation. -/
theorem early_frame_deviation_clamp_witness :
    (fpslimitCycle ⟨0, 0, 1000⟩ ⟨60, 1, 1000, 2000, 3000⟩).deviation
      = (1000000000 / 60) / 16
    ∧ (1000000000 / 60) / 16
        < add64 0 (sub64 (sub64 2000 1000) (1000000000 / 60)) :=
  early_frame_deviation_clamp ⟨0, 0, 1000⟩ ⟨60, 1, 1000, 2000, 3000⟩
    (by decide) (by decide)

/-- C6: while the stored target fps is 0 the limiter loop's wait predicate
is `false` for every frame count, so the loop stays blocked on the
condition variable at line 185 and its body (which performs the commit
releases) does not run; and after `fpslimit_set_target n` with `n > 0`,
the next `fpslimit_mark_frame` (which advances `frameCount`) makes the
predicate `true`, unblocking the loop.  The predicate requires both a
nonzero target and a frame count different from the last observed one. -/
theorem limiter_wait_gating (s : FpsLimitShared) (lastFrameCount : Nat)
    (n : Int) (now : Nat) :
    (s.g_nFpsLimitTargetFPS = 0 → fpslimitWaitPredicate s lastFrameCount = false)
    ∧ (0 < n → lastFrameCount ≤ s.g_FrameInfo.frameCount →
        s.g_FrameInfo.frameCount + 1 < two64 →
        fpslimitWaitPredicate (fpslimit_mark_frame (fpslimit_set_target s n) now)
          lastFrameCount = true) := by
  constructor
  · intro h0
    simp [fpslimitWaitPredicate, h0]
  · intro hn hle hc
    have hcount : add64 s.g_FrameInfo.frameCount 1 = s.g_FrameInfo.frameCount + 1 :=
      add64_eq_of_lt hc
    simp only [fpslimitWaitPredicate, fpslimit_mark_frame, fpslimit_set_target, hcount,
      Bool.and_eq_true, decide_eq_true_eq]
    constructor
    · omega
    · omega

/-- Witness for `limiter_wait_gating`: target initially 0 (blocked), then
`set_target 30` followed by `mark_frame` at time 50 unblocks. -/
theorem limiter_wait_gating_witness :
    fpslimitWaitPredicate ⟨0, ⟨1, 2, 7⟩⟩ 7 = false
    ∧ fpslimitWaitPredicate (fpslimit_mark_frame (fpslimit_set_target ⟨0, ⟨1, 2, 7⟩⟩ 30) 50) 7
        = true :=
  ⟨(limiter_wait_gating ⟨0, ⟨1, 2, 7⟩⟩ 7 30 50).1 rfl,
    (limiter_wait_gating ⟨0, ⟨1, 2, 7⟩⟩ 7 30 50).2 (by decide) (by decide) (by decide)⟩

/-- C7: every `fpslimit_mark_frame` call shifts `currentFrame` into
`lastFrame`, stores the current time into `currentFrame`, and increases
`frameCount` by exactly 1 (the `uint64_t` increment does not wrap below
2 ^ 64); with a monotonic clock the new state has
`lastFrame ≤ currentFrame`.  Moreover the limiter loop processes each
distinct frame count at most once: it records the observed count
(line 203), and the wait predicate is `false` whenever the stored count
equals the recorded one. -/
theorem mark_frame_effects (s : FpsLimitShared) (now : Nat)
    (hc : s.g_FrameInfo.frameCount + 1 < two64)
    (hmono : s.g_FrameInfo.currentFrame ≤ now) :
    (fpslimit_mark_frame s now).g_FrameInfo.lastFrame = s.g_FrameInfo.currentFrame
    ∧ (fpslimit_mark_frame s now).g_FrameInfo.currentFrame = now
    ∧ (fpslimit_mark_frame s now).g_FrameInfo.frameCount = s.g_FrameInfo.frameCount + 1
    ∧ (fpslimit_mark_frame s now).g_FrameInfo.lastFrame
        ≤ (fpslimit_mark_frame s now).g_FrameInfo.currentFrame
    ∧ (∀ t : FpsLimitShared, fpslimitWaitPredicate t t.g_FrameInfo.frameCount = false) := by
  refine ⟨rfl, rfl, add64_eq_of_lt hc, hmono, ?_⟩
  intro t
  simp [fpslimitWaitPredicate]

/-- Witness for `mark_frame_effects` at a concrete state and time, with
the at-most-once conjunct instantiated at the post-call state. -/
theorem mark_frame_effects_witness :
    (fpslimit_mark_frame ⟨60, ⟨3, 5, 7⟩⟩ 11).g_FrameInfo.lastFrame = 5
    ∧ (fpslimit_mark_frame ⟨60, ⟨3, 5, 7⟩⟩ 11).g_FrameInfo.currentFrame = 11
    ∧ (fpslimit_mark_frame ⟨60, ⟨3, 5, 7⟩⟩ 11).g_FrameInfo.frameCount = 8
    ∧ (fpslimit_mark_frame ⟨60, ⟨3, 5, 7⟩⟩ 11).g_FrameInfo.lastFrame
      ≤ (fpslimit_mark_frame ⟨60, ⟨3, 5, 7⟩⟩ 11).g_FrameInfo.currentFrame
    ∧ fpslimitWaitPredicate ⟨60, ⟨5, 11, 8⟩⟩ 8 = false :=
  ⟨(mark_frame_effects ⟨60, ⟨3, 5, 7⟩⟩ 11 (by decide) (by decide)).1,
    (mark_frame_effects ⟨60, ⟨3, 5, 7⟩⟩ 11 (by decide) (by decide)).2.1,
    (mark_frame_effects ⟨60, ⟨3, 5, 7⟩⟩ 11 (by decide) (by decide)).2.2.1,
    (mark_frame_effects ⟨60, ⟨3, 5, 7⟩⟩ 11 (by decide) (by decide)).2.2.2.1,
    (mark_frame_effects ⟨60, ⟨3, 5, 7⟩⟩ 11 (by decide) (by decide)).2.2.2.2 ⟨60, ⟨5, 11, 8⟩⟩⟩

/- ### Predictor initialization (source lines 132-146) -/

/-- The externally observable outcome of `vblank_init`: its return value,
whether `g_lastVblank` was written (and with what), and whether the
vblank thread was started. -/
structure VblankInitOutcome where
  ret : Int
  g_lastVblank : Option Nat
  threadStarted : Bool
deriving DecidableEq

/-- Source lines 132-146, `vblank_init`.  The `pipe2Result` argument
models the outcome of `pipe2(g_vblankPipe, O_CLOEXEC | O_NONBLOCK)`:
`none` when the call returns nonzero (failure), `some (rd, wr)` with the
two created descriptors on success.  On failure the function returns -1
at once; on success it stores `get_time_in_nanos()` into `g_lastVblank`,
starts (and detaches) the vblank thread, and returns `g_vblankPipe[0]`,
the read end. -/
def vblank_init (pipe2Result : Option (Int × Int)) (now : Nat) : VblankInitOutcome :=
  match pipe2Result with
  | none => ⟨-1, none, false⟩
  | some fds => ⟨fds.1, some now, true⟩

/-- C8: `vblank_init` returns the error sentinel -1 — with no thread
launched and `g_lastVblank` unwritten — if and only if the pipe creation
failed; on success it records the current time as the initial last-vblank
timestamp, starts the background thread, and returns the read end of the
pipe.  The hypothesis states that real file descriptors are non-negative,
so a successful return is never confused with the sentinel. -/
theorem vblank_init_spec (pipe2Result : Option (Int × Int)) (now : Nat)
    (hfd : ∀ fds, pipe2Result = some fds → 0 ≤ fds.1) :
    ((vblank_init pipe2Result now).ret = -1
      ∧ (vblank_init pipe2Result now).threadStarted = false
      ∧ (vblank_init pipe2Result now).g_lastVblank = none ↔ pipe2Result = none)
    ∧ ((vblank_init pipe2Result now).ret = -1 ↔ pipe2Result = none)
    ∧ (∀ fds, pipe2Result = some fds →
        vblank_init pipe2Result now = ⟨fds.1, some now, true⟩) := by
  cases pipe2Result with
  | none => simp [vblank_init]
  | some fds =>
      have hpos : 0 ≤ fds.1 := hfd fds rfl
      have hne : fds.1 ≠ -1 := by omega
      refine ⟨?_, ?_, ?_⟩
      · simp [vblank_init, hne]
      · simp [vblank_init, hne]
      · intro fds2 h2
        rw [Option.some.injEq] at h2
        subst h2
        rfl

/-- Witness for `vblank_init_spec`: pipe creation succeeds with
descriptors (3, 4) at time 42, so the sentinel is not returned and the
state is fully initialized. -/
theorem vblank_init_spec_witness :
    ((vblank_init (some (3, 4)) 42).ret = -1 ↔ (some (3, 4) : Option (Int × Int)) = none)
    ∧ vblank_init (some (3, 4)) 42 = ⟨3, some 42, true⟩ :=
  ⟨(vblank_init_spec (some (3, 4)) 42
      (by
        intro fds h
        rw [Option.some.injEq] at h
        subst h
        decide)).2.1,
    (vblank_init_spec (some (3, 4)) 42
      (by
        intro fds h
        rw [Option.some.injEq] at h
        subst h
        decide)).2.2 (3, 4) rfl⟩

end VblankManager
